import Mathlib

/-!
Verification of the BLS OEWS cleaning pipeline (src/process_bls.py).

The tabular data is modelled shallowly: a cell is an optional string
(`none` models a pandas NaN), a data file is a list of fixed-schema
records, and the python dictionaries built by the lookup loader are
association lists queried with last-binding-wins semantics, matching
how `dict(zip(ks, vs))` resolves duplicate keys.
-/

namespace ProcessBls

/-- A cell of the tabular data; `none` models a pandas NaN. -/
abbrev Cell := Option String

/-- One row of a BLS OEWS data file after schema normalization.  The first
22 fields are the columns read from the file (lower-cased, synonym-renamed);
the last three model the columns created by the pipeline stages
(`map_soc` adds the 2019 code and title, `map_peer_type` adds the peer
type), absent (`none`) until assigned. -/
structure RawRec where
  area : Cell := none
  area_title : Cell := none
  occ_code : Cell := none
  occ_title : Cell := none
  o_group : Cell := none
  tot_emp : Cell := none
  emp_prse : Cell := none
  jobs_1000 : Cell := none
  loc_quotient : Cell := none
  h_mean : Cell := none
  a_mean : Cell := none
  mean_prse : Cell := none
  h_pct10 : Cell := none
  h_pct25 : Cell := none
  h_median : Cell := none
  h_pct75 : Cell := none
  h_pct90 : Cell := none
  a_pct10 : Cell := none
  a_pct25 : Cell := none
  a_median : Cell := none
  a_pct75 : Cell := none
  a_pct90 : Cell := none
  oes_code_2019 : Cell := none
  oes_title_2019 : Cell := none
  peer_type : Cell := none
  deriving DecidableEq

/-- One row of the projected output schema produced at the end of
`clean_bls` (the column list at lines 199-205 of the source). -/
structure OutRec where
  report_year : Option Nat := none
  area : Cell := none
  area_title : Cell := none
  peer_type : Cell := none
  oes_code_2019 : Cell := none
  oes_title_2019 : Cell := none
  o_group : Cell := none
  tot_emp : Cell := none
  emp_prse : Cell := none
  jobs_1000 : Cell := none
  loc_quotient : Cell := none
  h_mean : Cell := none
  a_mean : Cell := none
  mean_prse : Cell := none
  h_pct10 : Cell := none
  h_pct25 : Cell := none
  h_median : Cell := none
  h_pct75 : Cell := none
  h_pct90 : Cell := none
  a_pct10 : Cell := none
  a_pct25 : Cell := none
  a_median : Cell := none
  a_pct75 : Cell := none
  a_pct90 : Cell := none
  deriving DecidableEq

/-- Lookup in a python dictionary built by `dict(zip(keys, values))`,
modelled as an association list in zip order: on duplicate keys the last
binding wins.  A `none` key models mapping a NaN cell, which is never a
key of these dictionaries. -/
def dictGet (d : List (String × String)) (k : Cell) : Cell :=
  match k with
  | none => none
  | some s => (d.reverse.find? (fun p => p.1 == s)).map (fun p => p.2)

/-- The four crosswalk dictionaries built by `load_oes_lookup`, keyed
in the source by the strings 1019, 1819, 1919 and 19. -/
structure SocLookup where
  soc1019 : List (String × String)
  oes1819 : List (String × String)
  oes1919 : List (String × String)
  oes19 : List (String × String)
  deriving DecidableEq

/-- One data row of the crosswalk reference file, after the five note
rows are skipped and the columns renamed (lines 49-55 of the source). -/
structure OesRow where
  oes_code_2019 : String
  oes_title_2019 : String
  soc_code_2018 : String
  soc_title_2018 : String
  oes_code_2018 : String
  oes_title_2018 : String
  soc_code_2010 : String
  soc_title_2010 : String
  deriving DecidableEq

/-- Model of `load_oes_lookup`: the raw table is `none` when reading the
reference file raised (missing or malformed file), in which case the
loader reports the failure and returns `None`; otherwise the four
dictionaries are built by zipping columns (lines 59-67). -/
def load_oes_lookup (raw : Option (List OesRow)) : Option SocLookup :=
  match raw with
  | none => none
  | some rows =>
    some { soc1019 := rows.map (fun r => (r.soc_code_2010, r.oes_code_2019)),
           oes1819 := rows.map (fun r => (r.oes_code_2018, r.oes_code_2019)),
           oes1919 := rows.map (fun r => (r.oes_code_2019, r.oes_code_2019)),
           oes19 := rows.map (fun r => (r.oes_code_2019, r.oes_title_2019)) }

/-- Model of `load_msa_lookup`: `none` input models a read failure, on
which the loader reports and returns `None`; otherwise the area to
peer-type dictionary is returned (lines 23-30). -/
def load_msa_lookup (raw : Option (List (String × String))) :
    Option (List (String × String)) :=
  match raw with
  | none => none
  | some rows => some rows

/-- A raw data file before schema normalization: a header row of column
names and the data rows.  `much_consistency` acts only on the header. -/
structure DataFrame where
  cols : List String
  rows : List (List Cell)
  deriving DecidableEq

/-- ASCII lower-casing of one character: an upper-case basic latin
letter is shifted to its lower-case form, everything else is kept. -/
def lowerChar (c : Char) : Char :=
  if 65 ≤ c.toNat ∧ c.toNat ≤ 90 then Char.ofNat (c.toNat + 32) else c

/-- ASCII lower-casing of a column name, modelling `str.lower` on the
ASCII headers of the data files. -/
def lowerStr (s : String) : String := String.mk (s.data.map lowerChar)

/-- The fixed synonym rewrite applied by `df.rename` at lines 88-90. -/
def renameCol (s : String) : String :=
  if s = "occ_group" then "o_group"
  else if s = "loc quotient" then "loc_quotient"
  else if s = "area_name" then "area_title"
  else s

/-- Model of `much_consistency` (lines 75-93): force the column headers
to lower case, then apply the synonym rewrite table.  Data rows are
untouched. -/
def much_consistency (df : DataFrame) : DataFrame :=
  { df with cols := (df.cols.map lowerStr).map renameCol }

/-- The year-banded crosswalk selection of `map_soc`, lines 107-114: the
default is the 1919 identity dictionary, years 2014-2016 select the 1019
legacy dictionary, years 2017-2018 the 1819 dictionary, and years from
2019 on the 1919 dictionary again. -/
def select_mappings (soc_lookup : SocLookup) (report_year : Nat) :
    List (String × String) :=
  if report_year = 2014 ∨ report_year = 2015 ∨ report_year = 2016 then
    soc_lookup.soc1019
  else if report_year = 2017 ∨ report_year = 2018 then soc_lookup.oes1819
  else if 2019 ≤ report_year then soc_lookup.oes1919
  else soc_lookup.oes1919

/-- True for rows whose aggregation level is the detailed one. -/
def isDetailed (r : RawRec) : Bool := r.o_group == some "detailed"

/-- Line 117 applied to one row: the mapped code for detailed rows, NaN
for the others (column alignment writes NaN outside the selection). -/
def soc_step1 (soc_mappings : List (String × String)) (r : RawRec) : RawRec :=
  { r with oes_code_2019 :=
      if isDetailed r then dictGet soc_mappings r.occ_code else none }

/-- Line 122 applied to one row: remap a missing code via the 1819
dictionary. -/
def soc_missing_fix (soc_lookup : SocLookup) (r : RawRec) : RawRec :=
  { r with oes_code_2019 := dictGet soc_lookup.oes1819 r.occ_code }

/-- Lines 126-127 applied to one row: a non-detailed row keeps its own
code and title. -/
def soc_totals_fix (r : RawRec) : RawRec :=
  { r with oes_code_2019 := r.occ_code, oes_title_2019 := r.occ_title }

/-- Line 131 applied to one row: the title of every recombined detailed
row is the assigned code looked up in the 1919 dictionary. -/
def soc_title_fix (soc_lookup : SocLookup) (r : RawRec) : RawRec :=
  { r with oes_title_2019 := dictGet soc_lookup.oes1919 r.oes_code_2019 }

/-- Model of `map_soc` (lines 96-137).  Line 117 writes the mapped code
into detailed rows and NaN into the others; lines 120-122 split the
detailed rows into matched and missing and remap the missing ones via
the 1819 dictionary; lines 125-127 give the non-detailed rows their own
code and title; lines 130-133 recombine, with the title of every
detailed row looked up in the 1919 dictionary. -/
def map_soc (soc_lookup : SocLookup) (report_year : Nat)
    (df : List RawRec) : List RawRec :=
  let soc_mappings := select_mappings soc_lookup report_year
  let df1 := df.map (soc_step1 soc_mappings)
  let df_matched := df1.filter (fun r =>
    !(r.oes_code_2019 == none) && isDetailed r)
  let df_missing := (df1.filter (fun r =>
    (r.oes_code_2019 == none) && isDetailed r)).map
      (soc_missing_fix soc_lookup)
  let df_totals := (df1.filter (fun r => !(isDetailed r))).map soc_totals_fix
  let df_combined := (df_matched ++ df_missing).map (soc_title_fix soc_lookup)
  df_combined ++ df_totals

/-- Lines 151-152 applied to one row: the area mapped through the
lookup, with the catch-all label filled in for an unmatched area. -/
def peer_fix (msa_lookup : List (String × String)) (r : RawRec) : RawRec :=
  { r with peer_type :=
      match dictGet msa_lookup r.area with
      | some v => some v
      | none => some "All Other MSA" }

/-- Model of `map_peer_type` (lines 140-155): map the area through the
lookup, then fill the unmatched rows with the catch-all label. -/
def map_peer_type (msa_lookup : List (String × String))
    (df : List RawRec) : List RawRec :=
  df.map (peer_fix msa_lookup)

/-- The sentinel tokens replaced by `map_nulls` (line 165). -/
def null_replace : List String := ["#", "*", "**"]

/-- Replacement of a single cell by `df.replace`: a sentinel value
becomes NaN, everything else is untouched. -/
def replaceCell (c : Cell) : Cell :=
  match c with
  | none => none
  | some v => if v ∈ null_replace then none else some v

/-- Sentinel replacement applied to every column of one row. -/
def map_nullsRec (r : RawRec) : RawRec :=
  { area := replaceCell r.area,
    area_title := replaceCell r.area_title,
    occ_code := replaceCell r.occ_code,
    occ_title := replaceCell r.occ_title,
    o_group := replaceCell r.o_group,
    tot_emp := replaceCell r.tot_emp,
    emp_prse := replaceCell r.emp_prse,
    jobs_1000 := replaceCell r.jobs_1000,
    loc_quotient := replaceCell r.loc_quotient,
    h_mean := replaceCell r.h_mean,
    a_mean := replaceCell r.a_mean,
    mean_prse := replaceCell r.mean_prse,
    h_pct10 := replaceCell r.h_pct10,
    h_pct25 := replaceCell r.h_pct25,
    h_median := replaceCell r.h_median,
    h_pct75 := replaceCell r.h_pct75,
    h_pct90 := replaceCell r.h_pct90,
    a_pct10 := replaceCell r.a_pct10,
    a_pct25 := replaceCell r.a_pct25,
    a_median := replaceCell r.a_median,
    a_pct75 := replaceCell r.a_pct75,
    a_pct90 := replaceCell r.a_pct90,
    oes_code_2019 := replaceCell r.oes_code_2019,
    oes_title_2019 := replaceCell r.oes_title_2019,
    peer_type := replaceCell r.peer_type }

/-- Model of `map_nulls` (lines 158-169): `df.replace` applied uniformly
to every column of every row. -/
def map_nulls (df : List RawRec) : List RawRec := df.map map_nullsRec

/-- Numeric value of a decimal digit string, as `int` computes it on the
regex group (which starts with a nonzero digit). -/
def digitsToNat (ds : List Char) : Nat :=
  ds.foldl (fun a c => a * 10 + (c.toNat - 48)) 0

/-- True on the decimal digit characters. -/
def isDigitCh (c : Char) : Bool := '0' ≤ c && c ≤ '9'

/-- Splits off the maximal leading run of decimal digits. -/
def takeDigits : List Char → List Char × List Char
  | [] => ([], [])
  | c :: cs =>
    if isDigitCh c then
      let p := takeDigits cs
      (c :: p.1, p.2)
    else ([], c :: cs)

/-- Attempt of the regex `(M)([1-9]\d{3,})(_)` at the head of the
character list: a literal M, a nonzero digit, at least three further
digits (greedy, and since a digit never equals the underscore the greedy
run cannot backtrack), then an underscore; on success the numeric value
of the second group is returned. -/
def matchYearAt (s : List Char) : Option Nat :=
  match s with
  | c0 :: c1 :: cs =>
    if c0 = 'M' ∧ '1' ≤ c1 ∧ c1 ≤ '9' then
      let p := takeDigits cs
      if 3 ≤ p.1.length then
        if p.2.head? = some '_' then some (digitsToNat (c1 :: p.1))
        else none
      else none
    else none
  | _ => none

/-- Leftmost search of the year pattern, as `re.search` scans the string
from the first position on. -/
def searchYear : List Char → Option Nat
  | [] => none
  | c :: cs =>
    match matchYearAt (c :: cs) with
    | some y => some y
    | none => searchYear cs

/-- Model of line 192: the report year is the second group of the first
match of `(M)([1-9]\d{3,})(_)` anywhere in the full path string, or
`none` when `re.search` returns `None` (on which the subscript raises
and the run aborts). -/
def extract_report_year (path : String) : Option Nat := searchYear path.data

/-- One input data file: its full path string and its rows, taken after
schema normalization per the fixed-schema boundary of the data model. -/
structure InputFile where
  path : String
  df : List RawRec

/-- Projection of a processed row to the output column set of lines
199-205, together with the report-year assignment of line 197. -/
def project_row (report_year : Nat) (r : RawRec) : OutRec :=
  { report_year := some report_year,
    area := r.area,
    area_title := r.area_title,
    peer_type := r.peer_type,
    oes_code_2019 := r.oes_code_2019,
    oes_title_2019 := r.oes_title_2019,
    o_group := r.o_group,
    tot_emp := r.tot_emp,
    emp_prse := r.emp_prse,
    jobs_1000 := r.jobs_1000,
    loc_quotient := r.loc_quotient,
    h_mean := r.h_mean,
    a_mean := r.a_mean,
    mean_prse := r.mean_prse,
    h_pct10 := r.h_pct10,
    h_pct25 := r.h_pct25,
    h_median := r.h_median,
    h_pct75 := r.h_pct75,
    h_pct90 := r.h_pct90,
    a_pct10 := r.a_pct10,
    a_pct25 := r.a_pct25,
    a_median := r.a_median,
    a_pct75 := r.a_pct75,
    a_pct90 := r.a_pct90 }

/-- The per-file stage sequence of lines 194-205: crosswalk, peer
classification, null harmonization, report-year assignment and
projection. -/
def process_file (soc_lookup : SocLookup) (msa_lookup : List (String × String))
    (report_year : Nat) (df : List RawRec) : List OutRec :=
  (map_nulls (map_peer_type msa_lookup (map_soc soc_lookup report_year df))).map
    (project_row report_year)

/-- One iteration of the loop at lines 187-208.  A `none` result models
an uncaught python exception aborting the run: when the path does not
match the year pattern the `None` subscript at line 192 raises
`TypeError`; when `load_oes_lookup` returned `None` the subscript
`soc_lookup` at line 107 raises `TypeError`; when `load_msa_lookup`
returned `None` the `Series.map(None)` call at line 151 raises
`TypeError`. -/
def process_one (soc_lookup : Option SocLookup)
    (msa_lookup : Option (List (String × String))) (f : InputFile) :
    Option (List OutRec) :=
  match extract_report_year f.path with
  | none => none
  | some y =>
    match soc_lookup with
    | none => none
    | some slk =>
      match msa_lookup with
      | none => none
      | some mlk => some (process_file slk mlk y f.df)

/-- The loop of `clean_bls`: per-file batches are concatenated in file
order, and any per-file exception aborts the whole run. -/
def clean_bls_loop (soc_lookup : Option SocLookup)
    (msa_lookup : Option (List (String × String))) :
    List InputFile → Option (List OutRec)
  | [] => some []
  | f :: fs =>
    match process_one soc_lookup msa_lookup f with
    | none => none
    | some df =>
      match clean_bls_loop soc_lookup msa_lookup fs with
      | none => none
      | some rest => some (df ++ rest)

/-- The final filter of line 210: drop every record whose peer type
equals the catch-all label.  A NaN peer type compares unequal to the
label and is retained. -/
def filter_catch_all (df : List OutRec) : List OutRec :=
  df.filter (fun r => !(r.peer_type == some "All Other MSA"))

/-- Model of `clean_bls` (lines 172-213): process every file, merge, and
apply the catch-all filter. -/
def clean_bls (soc_lookup : Option SocLookup)
    (msa_lookup : Option (List (String × String))) (files : List InputFile) :
    Option (List OutRec) :=
  match clean_bls_loop soc_lookup msa_lookup files with
  | none => none
  | some merged => some (filter_catch_all merged)

/-- Model of `split_bls_ogroup` (lines 216-231): the three partitions by
aggregation level. -/
def split_bls_ogroup (df : List OutRec) :
    List OutRec × List OutRec × List OutRec :=
  (df.filter (fun r => r.o_group == some "total"),
   df.filter (fun r => r.o_group == some "major"),
   df.filter (fun r => r.o_group == some "detailed"))

/-- Modelled from the spec: the year-band rule exactly as claim C1 words
it, with the legacy cutoff at 2016 and the current-generation cutoff at
2019 - years up to and including 2016 select the legacy dictionary,
2017-2018 the prior-generation dictionary, 2019 and later the identity
dictionary.  Stated for comparison with `select_mappings`. -/
def claim_select_mappings (soc_lookup : SocLookup) (report_year : Nat) :
    List (String × String) :=
  if report_year ≤ 2016 then soc_lookup.soc1019
  else if report_year ≤ 2018 then soc_lookup.oes1819
  else soc_lookup.oes1919

/-- Modelled from the spec: the resolved code claim C1 mandates - the
band-selected value when present, else the fallback 1819 value, else
null. -/
def claim_resolved_code (soc_lookup : SocLookup) (report_year : Nat)
    (occ : Cell) : Cell :=
  match dictGet (claim_select_mappings soc_lookup report_year) occ with
  | some c => some c
  | none => dictGet soc_lookup.oes1819 occ

/-- The resolved-code rule the source actually implements: the value of
the `select_mappings` dictionary when present, else the 1819 fallback,
else null. -/
def resolved_code (soc_lookup : SocLookup) (report_year : Nat)
    (occ : Cell) : Cell :=
  match dictGet (select_mappings soc_lookup report_year) occ with
  | some c => some c
  | none => dictGet soc_lookup.oes1819 occ

/-- Erases the fields written by `map_soc`, for stating that every input
record is retained with its original field values. -/
def original_fields (r : RawRec) : RawRec :=
  { r with oes_code_2019 := none, oes_title_2019 := none }

/-- The complete per-record pipeline transform of a non-detailed row:
crosswalk pass-through, peer classification, null harmonization and
projection. -/
def row_tf_nondetailed (slk : SocLookup) (mlk : List (String × String))
    (y : Nat) (r : RawRec) : OutRec :=
  project_row y (map_nullsRec (peer_fix mlk
    (soc_totals_fix (soc_step1 (select_mappings slk y) r))))

/-- The complete per-record pipeline transform of a detailed row whose
code is matched by the band-selected dictionary. -/
def row_tf_matched (slk : SocLookup) (mlk : List (String × String))
    (y : Nat) (r : RawRec) : OutRec :=
  project_row y (map_nullsRec (peer_fix mlk
    (soc_title_fix slk (soc_step1 (select_mappings slk y) r))))

/-- The complete per-record pipeline transform of a detailed row whose
code is unmatched by the band-selected dictionary and goes through the
1819 fallback. -/
def row_tf_fallback (slk : SocLookup) (mlk : List (String × String))
    (y : Nat) (r : RawRec) : OutRec :=
  project_row y (map_nullsRec (peer_fix mlk (soc_title_fix slk
    (soc_missing_fix slk (soc_step1 (select_mappings slk y) r)))))

/-- The columns of one row, in the column order of the data file at the
point where `map_nulls` runs. -/
def rec_cells (r : RawRec) : List Cell :=
  [r.area, r.area_title, r.occ_code, r.occ_title, r.o_group, r.tot_emp,
   r.emp_prse, r.jobs_1000, r.loc_quotient, r.h_mean, r.a_mean, r.mean_prse,
   r.h_pct10, r.h_pct25, r.h_median, r.h_pct75, r.h_pct90, r.a_pct10,
   r.a_pct25, r.a_median, r.a_pct75, r.a_pct90, r.oes_code_2019,
   r.oes_title_2019, r.peer_type]

/-- Input record for the C7 witness, with an area absent from the
lookup. -/
def rec_C7 : RawRec := { area := some "99999", o_group := some "total" }

/-- Output record of the peer stage on `rec_C7`. -/
def rec_C7_out : RawRec :=
  { area := some "99999", o_group := some "total",
    peer_type := some "All Other MSA" }

/-- The crosswalk reference rows for the C2 failing input: one data row
whose 2019 code and 2019 title differ. -/
def oes_rows_C2 : List OesRow :=
  [{ oes_code_2019 := "15-1252", oes_title_2019 := "Software Developers",
     soc_code_2018 := "15-1252", soc_title_2018 := "Software Developers",
     oes_code_2018 := "15-1252", oes_title_2018 := "Software Developers",
     soc_code_2010 := "15-1132", soc_title_2010 := "Software Applications" }]

/-- The lookup structure `load_oes_lookup` builds from `oes_rows_C2`. -/
def lk_C2 : SocLookup :=
  { soc1019 := [("15-1132", "15-1252")],
    oes1819 := [("15-1252", "15-1252")],
    oes1919 := [("15-1252", "15-1252")],
    oes19 := [("15-1252", "Software Developers")] }

/-- A detailed record whose code is resolved by the crosswalk. -/
def rec_C2 : RawRec :=
  { area := some "10180", occ_code := some "15-1252",
    o_group := some "detailed" }

/-- Crosswalk lookup used by the driver evaluation theorems. -/
def lk_run : SocLookup :=
  { soc1019 := [("15-1132", "15-1252")],
    oes1819 := [("15-1099", "15-1299")],
    oes1919 := [("15-1252", "15-1252")],
    oes19 := [("15-1252", "Software Developers")] }

/-- Peer lookup used by the driver evaluation theorems. -/
def msa_run : List (String × String) := [("10180", "Peer")]

/-- A record processed successfully by the full pipeline. -/
def rec_run : RawRec :=
  { area := some "10180", occ_code := some "15-1132",
    o_group := some "detailed" }

/-- A well-named input file (the year pattern M2015 underscore occurs in
the file name). -/
def file_good : InputFile :=
  { path := "data/bls/MSA_M2015_dl_3.xlsx", df := [rec_run] }

/-- An input file whose name nowhere matches the year pattern: the year
digits are not preceded by the literal M. -/
def file_bad : InputFile :=
  { path := "data/bls/oes_research_2015_sec_55.xlsx", df := [rec_run] }

/-- Crosswalk lookup for the C1 counterexample: the code 11-1011 is a
key of the legacy dictionary only. -/
def lk_C1 : SocLookup :=
  { soc1019 := [("11-1011", "99-9999")],
    oes1819 := [], oes1919 := [], oes19 := [] }

/-- A detailed record with the legacy-only code, from a year before the
legacy band. -/
def rec_C1 : RawRec :=
  { area := some "10180", occ_code := some "11-1011",
    o_group := some "detailed" }

/-- The crosswalker output on the witness input for C1. -/
def rec_C1w_out : RawRec :=
  { area := some "10180", occ_code := some "11-1011",
    o_group := some "detailed", oes_code_2019 := some "99-9999",
    oes_title_2019 := none }

/-- A merged dataset for the C3 witness, one record per aggregation
level. -/
def df_C3 : List OutRec :=
  [{ o_group := some "total", peer_type := some "Peer" },
   { o_group := some "major", peer_type := some "All Other MSA" },
   { o_group := some "detailed", peer_type := some "Peer" }]

/-- Crosswalk lookup for the C6 counterexample: only the code 15-1252
is matched by the 1919 dictionary. -/
def lk_C6 : SocLookup :=
  { soc1019 := [], oes1819 := [],
    oes1919 := [("15-1252", "15-1252")], oes19 := [] }

/-- First record of the C6 file: detailed, code unmatched. -/
def rec_C6a : RawRec :=
  { area := some "10180", occ_code := some "99-0000",
    o_group := some "detailed" }

/-- Second record of the C6 file: detailed, code matched. -/
def rec_C6b : RawRec :=
  { area := some "10420", occ_code := some "15-1252",
    o_group := some "detailed" }

/-- Peer lookup keeping both C6 areas out of the catch-all filter. -/
def msa_C6 : List (String × String) := [("10180", "Peer"), ("10420", "Peer")]

/-- The C6 input file: the unmatched record comes first. -/
def file_C6 : InputFile :=
  { path := "data/bls/MSA_M2019_dl_3.xlsx", df := [rec_C6a, rec_C6b] }

/-- The merged output of the C6 run. -/
def out_C6 : List OutRec :=
  (clean_bls (some lk_C6) (some msa_C6) [file_C6]).getD []

/-- C9: the null harmonizer replaces, uniformly in every column, every
field value equal to one of the sentinel tokens with the canonical null
marker, and leaves every non-sentinel value unchanged; in particular a
double asterisk becomes null while the value 5.2 is unchanged. -/
theorem C9_map_nulls_uniform (df : List RawRec) :
    (map_nulls df).map rec_cells
      = df.map (fun r => (rec_cells r).map replaceCell) ∧
    replaceCell (some "#") = none ∧
    replaceCell (some "*") = none ∧
    replaceCell (some "**") = none ∧
    replaceCell (some "5.2") = some "5.2" ∧
    ∀ c : Cell, (∀ s ∈ null_replace, c ≠ some s) → replaceCell c = c := by
  refine ⟨?_, by decide, by decide, by decide, by decide, ?_⟩
  · rw [map_nulls, List.map_map]
    rfl
  · intro c h
    cases c with
    | none => rfl
    | some v =>
      have hv : v ∉ null_replace := fun hmem => (h v hmem) rfl
      simp [replaceCell, hv]

/-- Witness for C9 at a concrete non-sentinel cell. -/
theorem C9_map_nulls_uniform_witness : replaceCell (some "5.2") = some "5.2" :=
  (C9_map_nulls_uniform []).2.2.2.2.2 (some "5.2") (by decide)

/-- C7: after the peer-classification stage every record has a non-null
peer type, equal to the lookup value of its area when the area is a key
of the lookup and to the catch-all label otherwise. -/
theorem C7_peer_type_total (msa_lookup : List (String × String))
    (df : List RawRec) :
    ∀ r ∈ map_peer_type msa_lookup df,
      r.peer_type ≠ none ∧
      (∀ v, dictGet msa_lookup r.area = some v → r.peer_type = some v) ∧
      (dictGet msa_lookup r.area = none → r.peer_type = some "All Other MSA") := by
  intro r hr
  rw [map_peer_type, List.mem_map] at hr
  obtain ⟨s, _, rfl⟩ := hr
  cases hd : dictGet msa_lookup s.area <;> simp_all [peer_fix]

/-- Witness for C7 at a concrete record whose area is absent from the
lookup. -/
theorem C7_peer_type_total_witness :
    rec_C7_out.peer_type ≠ none ∧
    (∀ v, dictGet [("10180", "Peer")] rec_C7_out.area = some v →
      rec_C7_out.peer_type = some v) ∧
    (dictGet [("10180", "Peer")] rec_C7_out.area = none →
      rec_C7_out.peer_type = some "All Other MSA") :=
  C7_peer_type_total [("10180", "Peer")] [rec_C7] rec_C7_out (by decide)

/-- C2, failing input: the crosswalker assigns the canonical code
15-1252 to the record, yet writes the code itself into the title field,
because line 131 maps the assigned code through the 1919 code-to-code
dictionary; the code-to-title dictionary built by the loader gives the
title Software Developers at that code, which differs. -/
theorem C2_code_bug_eval :
    load_oes_lookup (some oes_rows_C2) = some lk_C2 ∧
    (map_soc lk_C2 2019 [rec_C2]).map (fun r => r.oes_code_2019)
      = [some "15-1252"] ∧
    (map_soc lk_C2 2019 [rec_C2]).map (fun r => r.oes_title_2019)
      = [some "15-1252"] ∧
    dictGet lk_C2.oes19 (some "15-1252") = some "Software Developers" ∧
    (some "15-1252" : Cell) ≠ some "Software Developers" := by decide

/-- C4, failing input: the year cannot be parsed from the path of
`file_bad`; a run over the good file alone produces output, but adding
the bad file makes the whole run abort (the `None` subscript at line 192
raises an uncaught `TypeError`), instead of skipping the file and
keeping the output of the remaining files. -/
theorem C4_code_bug_eval :
    extract_report_year file_bad.path = none ∧
    extract_report_year file_good.path = some 2015 ∧
    (clean_bls (some lk_run) (some msa_run) [file_good]).isSome = true ∧
    clean_bls (some lk_run) (some msa_run) [file_good] ≠ some [] ∧
    clean_bls (some lk_run) (some msa_run) [file_good, file_bad] = none := by
  decide

/-- C5, failing input: on a missing or malformed reference file each
loader reports the failure and returns `None`, but the run then aborts
on the first processed file - the subscript of the `None` crosswalk at
line 107, or the `Series.map(None)` call at line 151, raises an
uncaught `TypeError` - instead of completing with degraded
classifications. -/
theorem C5_code_bug_eval :
    load_oes_lookup none = none ∧
    load_msa_lookup none = none ∧
    clean_bls none (some msa_run) [file_good] = none ∧
    clean_bls (some lk_run) none [file_good] = none ∧
    (clean_bls (some lk_run) (some msa_run) [file_good]).isSome = true := by
  decide

/-- Packing a valid scalar value below the surrogate range round-trips
through `Char.ofNat`. -/
theorem char_toNat_ofNat {n : Nat} (h : n < 55296) :
    (Char.ofNat n).toNat = n := by
  unfold Char.ofNat
  rw [dif_pos (Or.inl h : Nat.isValidChar n)]
  rfl

/-- Lower-casing a character twice equals lower-casing it once. -/
theorem lowerChar_idem (c : Char) : lowerChar (lowerChar c) = lowerChar c := by
  unfold lowerChar
  by_cases h : 65 ≤ c.toNat ∧ c.toNat ≤ 90
  · have h1 : (Char.ofNat (c.toNat + 32)).toNat = c.toNat + 32 :=
      char_toNat_ofNat (by omega)
    rw [if_pos h, h1, if_neg (by omega)]
  · rw [if_neg h, if_neg h]

/-- Lower-casing a column name twice equals lower-casing it once. -/
theorem lowerStr_idem (s : String) : lowerStr (lowerStr s) = lowerStr s := by
  unfold lowerStr
  show String.mk ((s.data.map lowerChar).map lowerChar) = _
  rw [List.map_map]
  exact congrArg String.mk
    (List.map_congr_left (fun c _ => lowerChar_idem c))

/-- One full normalization pass on a column name is idempotent. -/
theorem canonCol_idem (s : String) :
    renameCol (lowerStr (renameCol (lowerStr s))) = renameCol (lowerStr s) := by
  by_cases h1 : lowerStr s = "occ_group"
  · rw [h1]; decide
  · by_cases h2 : lowerStr s = "loc quotient"
    · rw [h2]; decide
    · by_cases h3 : lowerStr s = "area_name"
      · rw [h3]; decide
      · have hr : renameCol (lowerStr s) = lowerStr s := by
          unfold renameCol
          rw [if_neg h1, if_neg h2, if_neg h3]
        rw [hr, lowerStr_idem, hr]

/-- C8: the schema normalizer is idempotent - re-applying
`much_consistency` to an already-normalized batch is a no-op. -/
theorem C8_much_consistency_idem (df : DataFrame) :
    much_consistency (much_consistency df) = much_consistency df := by
  unfold much_consistency
  congr 1
  simp only [List.map_map]
  exact List.map_congr_left (fun c _ => canonCol_idem c)

/-- Digit extraction on an extended list: if the maximal digit run of
the left part hit a non-digit, the run is unchanged; otherwises the run
continues into the right part. -/
theorem takeDigits_append (u v : List Char) :
    takeDigits (u ++ v) =
      if (takeDigits u).2 = [] then
        ((takeDigits u).1 ++ (takeDigits v).1, (takeDigits v).2)
      else ((takeDigits u).1, (takeDigits u).2 ++ v) := by
  induction u with
  | nil => simp [takeDigits]
  | cons c cs ih =>
    by_cases h : isDigitCh c
    · have hc : takeDigits (c :: cs) = (c :: (takeDigits cs).1, (takeDigits cs).2) := by
        simp [takeDigits, h]
      have hc2 : takeDigits (c :: (cs ++ v))
          = (c :: (takeDigits (cs ++ v)).1, (takeDigits (cs ++ v)).2) := by
        simp [takeDigits, h]
      rw [List.cons_append, hc2, ih, hc]
      by_cases h2 : (takeDigits cs).2 = [] <;> simp [h2]
    · have hc : takeDigits (c :: cs) = ([], c :: cs) := by simp [takeDigits, h]
      have hc2 : takeDigits (c :: (cs ++ v)) = ([], c :: (cs ++ v)) := by
        simp [takeDigits, h]
      rw [List.cons_append, hc2, hc]
      simp

/-- Variant of `takeDigits_append` when the left run was stopped by a
non-digit. -/
theorem takeDigits_append_stop {u : List Char} (v : List Char)
    (h : ¬((takeDigits u).2 = [])) :
    takeDigits (u ++ v) = ((takeDigits u).1, (takeDigits u).2 ++ v) := by
  rw [takeDigits_append, if_neg h]

/-- Variant of `takeDigits_append` when the left part is all digits. -/
theorem takeDigits_append_all {u : List Char} (v : List Char)
    (h : (takeDigits u).2 = []) :
    takeDigits (u ++ v)
      = ((takeDigits u).1 ++ (takeDigits v).1, (takeDigits v).2) := by
  rw [takeDigits_append, if_pos h]

/-- A successful pattern match at a position stays successful, with the
same year, when the string is extended on the right. -/
theorem matchYearAt_append_some {u : List Char} {y : Nat} (v : List Char)
    (h : matchYearAt u = some y) : matchYearAt (u ++ v) = some y := by
  match u with
  | [] => simp [matchYearAt] at h
  | [c0] => simp [matchYearAt] at h
  | c0 :: c1 :: cs =>
    simp only [matchYearAt] at h
    by_cases hc : c0 = 'M' ∧ '1' ≤ c1 ∧ c1 ≤ '9'
    · rw [if_pos hc] at h
      by_cases hl : 3 ≤ (takeDigits cs).1.length
      · rw [if_pos hl] at h
        by_cases hh : (takeDigits cs).2.head? = some '_'
        · rw [if_pos hh] at h
          have hne : ¬((takeDigits cs).2 = []) := by
            intro hnil; rw [hnil] at hh; exact Option.noConfusion hh
          show matchYearAt (c0 :: c1 :: (cs ++ v)) = some y
          simp only [matchYearAt]
          rw [if_pos hc, takeDigits_append, if_neg hne]
          rw [if_pos hl]
          cases hp : (takeDigits cs).2 with
          | nil => exact absurd hp hne
          | cons a tl =>
            rw [hp] at hh
            simp only [List.head?] at hh
            rw [List.cons_append, List.head?_cons, hh]
            rw [if_pos rfl]
            exact h
        · rw [if_neg hh] at h; exact Option.noConfusion h
      · rw [if_neg hl] at h; exact Option.noConfusion h
    · rw [if_neg hc] at h; exact Option.noConfusion h

/-- A failed pattern match at a position stays failed when the string is
extended by a path separator and more text: the separator is neither a
digit nor an underscore, so it can complete no partial match. -/
theorem matchYearAt_append_slash_none {u : List Char} (v : List Char)
    (h : matchYearAt u = none) : matchYearAt (u ++ ('/' :: v)) = none := by
  match u with
  | [] =>
    cases v with
    | nil => rfl
    | cons b bs =>
      show matchYearAt ('/' :: b :: bs) = none
      simp only [matchYearAt]
      rw [if_neg (fun hso => absurd hso.1 (by decide))]
  | [c0] =>
    show matchYearAt (c0 :: '/' :: v) = none
    simp only [matchYearAt]
    rw [if_neg (fun hso => absurd hso.2.1 (by decide))]
  | c0 :: c1 :: cs =>
    show matchYearAt (c0 :: c1 :: (cs ++ '/' :: v)) = none
    simp only [matchYearAt] at h ⊢
    by_cases hc : c0 = 'M' ∧ '1' ≤ c1 ∧ c1 ≤ '9'
    · rw [if_pos hc] at h ⊢
      by_cases hp : (takeDigits cs).2 = []
      · have hd : isDigitCh '/' = false := by decide
        have htd : takeDigits ('/' :: v) = ([], '/' :: v) := by
          simp [takeDigits, hd]
        have e := takeDigits_append_all ('/' :: v) hp
        rw [htd] at e
        have e1 : (takeDigits (cs ++ '/' :: v)).1 = (takeDigits cs).1 := by
          rw [e]; simp
        have e2 : (takeDigits (cs ++ '/' :: v)).2 = '/' :: v := by rw [e]
        rw [e1, e2]
        by_cases hl : 3 ≤ (takeDigits cs).1.length
        · rw [if_pos hl, List.head?_cons,
            if_neg (by decide : ¬((some '/' : Option Char) = some '_'))]
        · rw [if_neg hl]
      · have e := takeDigits_append_stop ('/' :: v) hp
        have e1 : (takeDigits (cs ++ '/' :: v)).1 = (takeDigits cs).1 := by
          rw [e]
        have e2 : (takeDigits (cs ++ '/' :: v)).2
            = (takeDigits cs).2 ++ '/' :: v := by rw [e]
        rw [e1, e2]
        by_cases hl : 3 ≤ (takeDigits cs).1.length
        · rw [if_pos hl]
          rw [if_pos hl] at h
          by_cases hh : (takeDigits cs).2.head? = some '_'
          · rw [if_pos hh] at h; exact Option.noConfusion h
          · cases hp2 : (takeDigits cs).2 with
            | nil => exact absurd hp2 hp
            | cons a tl =>
              rw [List.cons_append, List.head?_cons]
              rw [hp2, List.head?_cons] at hh
              rw [if_neg hh]
        · rw [if_neg hl]
    · rw [if_neg hc]

/-- Leftmost search on an extended path: a successful search over the
directory part gives the same year on the directory part followed by a
separator and a file name. -/
theorem searchYear_append_slash {u : List Char} {y : Nat} (v : List Char)
    (h : searchYear u = some y) : searchYear (u ++ ('/' :: v)) = some y := by
  induction u with
  | nil => exact Option.noConfusion h
  | cons c cs ih =>
    rw [searchYear] at h
    show searchYear ((c :: cs) ++ ('/' :: v)) = some y
    rw [List.cons_append, searchYear]
    cases hm : matchYearAt (c :: cs) with
    | some z =>
      rw [hm] at h
      have hext : matchYearAt ((c :: cs) ++ ('/' :: v)) = some z :=
        matchYearAt_append_some _ hm
      rw [List.cons_append] at hext
      rw [hext]
      exact h
    | none =>
      rw [hm] at h
      have hext : matchYearAt ((c :: cs) ++ ('/' :: v)) = none :=
        matchYearAt_append_slash_none _ hm
      rw [List.cons_append] at hext
      rw [hext]
      exact ih h

/-- C10: the report year is taken from the first occurrence of the
pattern anywhere in the full path string, not only in the base file
name - when a directory prefix of the path matches, that match (being
leftmost, and unable to extend across the path separator) determines
the report year for every file beneath the directory. -/
theorem C10_year_from_dir_prefix (d f : String) (y : Nat)
    (h : extract_report_year d = some y) :
    extract_report_year (d ++ "/" ++ f) = some y := by
  unfold extract_report_year at h ⊢
  have hdata : (d ++ "/" ++ f).data = d.data ++ ('/' :: f.data) := by
    simp [String.data_append]
  rw [hdata]
  exact searchYear_append_slash f.data h

/-- Witness for C10: a directory component carrying M2015 underscore
determines the year 2015 even though the file name carries M2019
underscore. -/
theorem C10_year_from_dir_prefix_witness :
    extract_report_year "data/bls/M2015_archive" = some 2015 ∧
    extract_report_year ("data/bls/M2015_archive" ++ "/" ++ "MSA_M2019_dl.xlsx")
      = some 2015 :=
  ⟨by decide,
   C10_year_from_dir_prefix "data/bls/M2015_archive" "MSA_M2019_dl.xlsx" 2015
     (by decide)⟩

/-- C1 counterexample: at report year 2013 the claimed band rule (years
up to and including the legacy cutoff select the legacy map) resolves
the code 11-1011 to 99-9999, but the source leaves any year before 2014
at the 1919 identity default, where the code is unmatched, so the
resolved code is null. -/
theorem C1_counterexample :
    (map_soc lk_C1 2013 [rec_C1]).map (fun r => r.oes_code_2019) = [none] ∧
    claim_resolved_code lk_C1 2013 rec_C1.occ_code = some "99-9999" ∧
    (map_soc lk_C1 2013 [rec_C1]).map (fun r => r.oes_code_2019)
      ≠ [claim_resolved_code lk_C1 2013 rec_C1.occ_code] := by decide

/-- Unfolding of `map_soc` into its three recombined pieces. -/
theorem map_soc_eq (slk : SocLookup) (y : Nat) (df : List RawRec) :
    map_soc slk y df =
      ((((df.map (soc_step1 (select_mappings slk y))).filter (fun r =>
            !(r.oes_code_2019 == none) && isDetailed r))
        ++ ((df.map (soc_step1 (select_mappings slk y))).filter (fun r =>
            (r.oes_code_2019 == none) && isDetailed r)).map
              (soc_missing_fix slk)).map (soc_title_fix slk))
      ++ ((df.map (soc_step1 (select_mappings slk y))).filter (fun r =>
            !(isDetailed r))).map soc_totals_fix := rfl

/-- Every detailed row of the crosswalker output carries the code of
the selected dictionary when its original code is matched there, else
the 1819 fallback value, else null - and a null code forces a null
title. -/
theorem map_soc_detailed_code (slk : SocLookup) (y : Nat) (df : List RawRec) :
    ∀ r ∈ map_soc slk y df, r.o_group = some "detailed" →
      r.oes_code_2019 = resolved_code slk y r.occ_code ∧
      (r.oes_code_2019 = none → r.oes_title_2019 = none) := by
  intro r hr hdet
  rw [map_soc_eq, List.mem_append] at hr
  rcases hr with hcomb | htot
  · rw [List.mem_map] at hcomb
    obtain ⟨s, hs, rfl⟩ := hcomb
    rw [List.mem_append] at hs
    rcases hs with hmat | hmis
    · rw [List.mem_filter] at hmat
      obtain ⟨hs1, hcond⟩ := hmat
      rw [List.mem_map] at hs1
      obtain ⟨t, _, rfl⟩ := hs1
      rw [Bool.and_eq_true] at hcond
      obtain ⟨hcode, hdet2⟩ := hcond
      have hdt : isDetailed t = true := hdet2
      cases hv : dictGet (select_mappings slk y) t.occ_code with
      | none =>
        exfalso
        simp [soc_step1, hv, hdt] at hcode
      | some v =>
        constructor
        · simp [soc_title_fix, soc_step1, resolved_code, hv, hdt]
        · intro hnone
          exfalso
          simp [soc_title_fix, soc_step1, hv, hdt] at hnone
    · rw [List.mem_map] at hmis
      obtain ⟨s2, hs2, rfl⟩ := hmis
      rw [List.mem_filter] at hs2
      obtain ⟨hs1, hcond⟩ := hs2
      rw [List.mem_map] at hs1
      obtain ⟨t, _, rfl⟩ := hs1
      rw [Bool.and_eq_true] at hcond
      obtain ⟨hcode, hdet2⟩ := hcond
      have hdt : isDetailed t = true := hdet2
      have hv : dictGet (select_mappings slk y) t.occ_code = none := by
        simp [soc_step1, hdt] at hcode
        exact hcode
      constructor
      · simp [soc_title_fix, soc_missing_fix, soc_step1, resolved_code, hv, hdt]
      · intro hnone
        have hfb : dictGet slk.oes1819 t.occ_code = none := by
          simpa [soc_title_fix, soc_missing_fix, soc_step1] using hnone
        have htl : (soc_title_fix slk (soc_missing_fix slk
            (soc_step1 (select_mappings slk y) t))).oes_title_2019
            = dictGet slk.oes1919 (dictGet slk.oes1819 t.occ_code) := rfl
        rw [htl, hfb]
        rfl
  · exfalso
    rw [List.mem_map] at htot
    obtain ⟨s, hs, rfl⟩ := htot
    rw [List.mem_filter] at hs
    obtain ⟨hs1, hcond⟩ := hs
    rw [List.mem_map] at hs1
    obtain ⟨t, _, rfl⟩ := hs1
    have : isDetailed t = false := by
      simpa using hcond
    rw [isDetailed] at this
    have hog : (soc_totals_fix (soc_step1 (select_mappings slk y) t)).o_group
        = t.o_group := rfl
    rw [hog] at hdet
    rw [hdet] at this
    simp at this

/-- The crosswalker output is a permutation of the input records, each
keeping every field other than the assigned code and title. -/
theorem map_soc_perm (slk : SocLookup) (y : Nat) (df : List RawRec) :
    ((map_soc slk y df).map original_fields).Perm
      (df.map original_fields) := by
  rw [map_soc_eq]
  have e1 : ∀ (l : List RawRec),
      (l.map (soc_missing_fix slk)).map (soc_title_fix slk)
        = l.map (fun r => soc_title_fix slk (soc_missing_fix slk r)) := by
    intro l; rw [List.map_map]; rfl
  have key0 :
      (((df.map (soc_step1 (select_mappings slk y))).filter (fun r =>
          !(r.oes_code_2019 == none) && isDetailed r))
        ++ (((df.map (soc_step1 (select_mappings slk y))).filter (fun r =>
          (r.oes_code_2019 == none) && isDetailed r))
        ++ ((df.map (soc_step1 (select_mappings slk y))).filter (fun r =>
          !(isDetailed r))))).Perm
        (df.map (soc_step1 (select_mappings slk y))) := by
    have p1 := List.filter_append_perm (fun r => !(r.oes_code_2019 == none))
      ((df.map (soc_step1 (select_mappings slk y))).filter (fun r =>
        isDetailed r))
    simp only [List.filter_filter, Bool.not_not] at p1
    have p3 := List.filter_append_perm (fun r => isDetailed r)
      (df.map (soc_step1 (select_mappings slk y)))
    rw [← List.append_assoc]
    exact (p1.append_right _).trans p3
  have keymap := key0.map original_fields
  rw [List.map_append, List.map_append] at keymap
  have hof1 : ∀ (l : List RawRec),
      (l.map (soc_title_fix slk)).map original_fields
        = l.map original_fields := by
    intro l; rw [List.map_map]; exact List.map_congr_left (fun t _ => rfl)
  have hof2 : ∀ (l : List RawRec),
      (l.map (fun r => soc_title_fix slk (soc_missing_fix slk r))).map
          original_fields = l.map original_fields := by
    intro l; rw [List.map_map]; exact List.map_congr_left (fun t _ => rfl)
  have hof3 : ∀ (l : List RawRec),
      (l.map soc_totals_fix).map original_fields = l.map original_fields := by
    intro l; rw [List.map_map]; exact List.map_congr_left (fun t _ => rfl)
  have hof0 : (df.map (soc_step1 (select_mappings slk y))).map original_fields
      = df.map original_fields := by
    rw [List.map_map]; exact List.map_congr_left (fun t _ => rfl)
  rw [List.map_append, List.map_append, e1, List.map_append, hof1, hof2, hof3,
    List.append_assoc]
  rw [hof0] at keymap
  exact keymap

/-- C1 amended: for every normalized batch and report year, every
detailed-level output record carries the value of the year-band-selected
mapping at its original code when present there - where years 2014-2016
select the legacy map, 2017-2018 the prior-generation map, 2019 and
later the identity map, and any other year also the identity default -
else the fallback prior-generation value when present, else null with a
null resolved title; and every record is retained (the output is a
permutation of the input up to the assigned code and title fields). -/
theorem C1_crosswalk_resolution (slk : SocLookup) (y : Nat)
    (df : List RawRec) :
    (∀ r ∈ map_soc slk y df, r.o_group = some "detailed" →
        r.oes_code_2019 = resolved_code slk y r.occ_code ∧
        (r.oes_code_2019 = none → r.oes_title_2019 = none)) ∧
    ((map_soc slk y df).map original_fields).Perm
      (df.map original_fields) :=
  ⟨map_soc_detailed_code slk y df, map_soc_perm slk y df⟩

/-- Witness for the amended C1 at year 2015 (inside the legacy band):
the single detailed record resolves through the legacy dictionary. -/
theorem C1_crosswalk_resolution_witness :
    rec_C1w_out.oes_code_2019 = resolved_code lk_C1 2015 rec_C1w_out.occ_code ∧
    (rec_C1w_out.oes_code_2019 = none → rec_C1w_out.oes_title_2019 = none) :=
  (C1_crosswalk_resolution lk_C1 2015 [rec_C1]).1 rec_C1w_out (by decide)
    (by decide)

/-- The three partitions, concatenated, permute the dataset, provided
every record sits at one of the three aggregation levels. -/
theorem split_union_perm (df : List OutRec)
    (h : ∀ r ∈ df, r.o_group = some "total" ∨ r.o_group = some "major" ∨
      r.o_group = some "detailed") :
    ((split_bls_ogroup df).1 ++ (split_bls_ogroup df).2.1
      ++ (split_bls_ogroup df).2.2).Perm df := by
  induction df with
  | nil => simp [split_bls_ogroup]
  | cons a l ih =>
    have ha := h a (List.mem_cons_self a l)
    have hl : ∀ r ∈ l, r.o_group = some "total" ∨ r.o_group = some "major" ∨
        r.o_group = some "detailed" :=
      fun r hr => h r (List.mem_cons_of_mem a hr)
    rcases ha with hcase | hcase | hcase
    · have ht : (a.o_group == some "total") = true := by rw [hcase]; rfl
      have hm : (a.o_group == some "major") = false := by rw [hcase]; rfl
      have hd : (a.o_group == some "detailed") = false := by rw [hcase]; rfl
      simp only [split_bls_ogroup, List.filter_cons, ht, hm, hd, if_true,
        if_false, Bool.false_eq_true]
      rw [List.cons_append, List.cons_append]
      exact (ih hl).cons a
    · have ht : (a.o_group == some "total") = false := by rw [hcase]; rfl
      have hm : (a.o_group == some "major") = true := by rw [hcase]; rfl
      have hd : (a.o_group == some "detailed") = false := by rw [hcase]; rfl
      simp only [split_bls_ogroup, List.filter_cons, ht, hm, hd, if_true,
        if_false, Bool.false_eq_true]
      refine ((List.perm_middle.append_right _).trans ?_)
      rw [List.cons_append]
      exact (ih hl).cons a
    · have ht : (a.o_group == some "total") = false := by rw [hcase]; rfl
      have hm : (a.o_group == some "major") = false := by rw [hcase]; rfl
      have hd : (a.o_group == some "detailed") = true := by rw [hcase]; rfl
      simp only [split_bls_ogroup, List.filter_cons, ht, hm, hd, if_true,
        if_false, Bool.false_eq_true]
      exact List.perm_middle.trans ((ih hl).cons a)

/-- C3: the three output partitions are pairwise disjoint; applied
before the catch-all filter their union is a permutation of the merged
dataset; and after the catch-all filter no record of any partition
carries the catch-all peer type. -/
theorem C3_partitions (df : List OutRec)
    (h : ∀ r ∈ df, r.o_group = some "total" ∨ r.o_group = some "major" ∨
      r.o_group = some "detailed") :
    (∀ r : OutRec,
      ¬(r ∈ (split_bls_ogroup (filter_catch_all df)).1 ∧
        r ∈ (split_bls_ogroup (filter_catch_all df)).2.1) ∧
      ¬(r ∈ (split_bls_ogroup (filter_catch_all df)).1 ∧
        r ∈ (split_bls_ogroup (filter_catch_all df)).2.2) ∧
      ¬(r ∈ (split_bls_ogroup (filter_catch_all df)).2.1 ∧
        r ∈ (split_bls_ogroup (filter_catch_all df)).2.2)) ∧
    ((split_bls_ogroup df).1 ++ (split_bls_ogroup df).2.1
      ++ (split_bls_ogroup df).2.2).Perm df ∧
    (∀ r : OutRec, (r ∈ (split_bls_ogroup (filter_catch_all df)).1 ∨
        r ∈ (split_bls_ogroup (filter_catch_all df)).2.1 ∨
        r ∈ (split_bls_ogroup (filter_catch_all df)).2.2) →
      r.peer_type ≠ some "All Other MSA") := by
  refine ⟨?_, split_union_perm df h, ?_⟩
  · intro r
    refine ⟨?_, ?_, ?_⟩ <;> rintro ⟨h1, h2⟩ <;>
      simp only [split_bls_ogroup, List.mem_filter, beq_iff_eq] at h1 h2 <;>
      rw [h1.2] at h2 <;> exact absurd h2.2 (by decide)
  · intro r hr
    have hmem : r ∈ filter_catch_all df := by
      rcases hr with h1 | h1 | h1 <;>
        (simp only [split_bls_ogroup, List.mem_filter] at h1; exact h1.1)
    rw [filter_catch_all, List.mem_filter] at hmem
    intro hEq
    rw [hEq] at hmem
    simp at hmem

/-- Witness for C3: the partition union permutes the concrete merged
dataset. -/
theorem C3_partitions_witness :
    ((split_bls_ogroup df_C3).1 ++ (split_bls_ogroup df_C3).2.1
      ++ (split_bls_ogroup df_C3).2.2).Perm df_C3 :=
  (C3_partitions df_C3 (by decide)).2.1

/-- C6 counterexample: the input file lists area 10180 before area
10420, but the detailed partition of the final output lists 10420
before 10180, because `map_soc` emits the primary-matched records
before the fallback ones. -/
theorem C6_counterexample :
    file_C6.df.map (fun r => r.area) = [some "10180", some "10420"] ∧
    ((split_bls_ogroup out_C6).2.2).map (fun r => r.area)
      = [some "10420", some "10180"] ∧
    ((split_bls_ogroup out_C6).2.2).map (fun r => r.area)
      ≠ [some "10180", some "10420"] := by decide

/-- The per-file pipeline, decomposed into the three per-branch
map-filter images of the input batch. -/
theorem process_file_eq (slk : SocLookup) (mlk : List (String × String))
    (y : Nat) (df : List RawRec) :
    process_file slk mlk y df
      = ((df.map (soc_step1 (select_mappings slk y))).filter (fun r =>
          !(r.oes_code_2019 == none) && isDetailed r)).map
            (fun r => project_row y (map_nullsRec (peer_fix mlk
              (soc_title_fix slk r))))
        ++ ((df.map (soc_step1 (select_mappings slk y))).filter (fun r =>
          (r.oes_code_2019 == none) && isDetailed r)).map
            (fun r => project_row y (map_nullsRec (peer_fix mlk
              (soc_title_fix slk (soc_missing_fix slk r)))))
        ++ ((df.map (soc_step1 (select_mappings slk y))).filter (fun r =>
          !(isDetailed r))).map
            (fun r => project_row y (map_nullsRec (peer_fix mlk
              (soc_totals_fix r)))) := by
  unfold process_file map_nulls map_peer_type
  rw [map_soc_eq]
  simp only [List.map_append, List.map_map]
  rfl

/-- Filtering the mapped image of a filtered, mapped batch equals one
map over one fused filter. -/
theorem piece_canon (F : RawRec → OutRec) (p : OutRec → Bool)
    (s : RawRec → Bool) (s1f : RawRec → RawRec) (df : List RawRec) :
    (((df.map s1f).filter s).map F).filter p
      = (df.filter (fun r => p (F (s1f r)) && s (s1f r))).map
          (fun r => F (s1f r)) := by
  rw [List.filter_map, List.filter_filter, List.filter_map, List.map_map]
  rfl

/-- Filtering the mapped image of a filtered batch equals one map over
one fused filter. -/
theorem map_filter_canon (F : RawRec → OutRec) (p : OutRec → Bool)
    (s : RawRec → Bool) (df : List RawRec) :
    ((df.filter s).map F).filter p
      = (df.filter (fun r => p (F r) && s r)).map F := by
  rw [List.filter_map, List.filter_filter]
  rfl

/-- A branch image vanishes under a partition filter whose fused
predicate is false on every row. -/
theorem split_piece_dead (F : RawRec → OutRec) (p : OutRec → Bool)
    (s : RawRec → Bool) (s1f : RawRec → RawRec) (df : List RawRec)
    (hpred : ∀ r : RawRec, (p (F (s1f r)) && s (s1f r)) = false) :
    (((df.map s1f).filter s).map F).filter p = [] := by
  rw [piece_canon]
  have hnil : df.filter (fun r => p (F (s1f r)) && s (s1f r)) = [] := by
    rw [List.filter_eq_nil_iff]
    intro a _
    show ¬((p (F (s1f a)) && s (s1f a)) = true)
    rw [hpred a]
    simp
  rw [hnil]
  rfl

/-- A branch image under a partition filter rewrites to a target
map-filter image when the fused predicates agree pointwise and the
per-row transforms agree pointwise. -/
theorem split_piece_master (F : RawRec → OutRec) (p : OutRec → Bool)
    (s : RawRec → Bool) (s1f : RawRec → RawRec) (q : RawRec → Bool)
    (G : RawRec → OutRec) (pk : OutRec → Bool) (df : List RawRec)
    (hpred : ∀ r : RawRec,
      (p (F (s1f r)) && s (s1f r)) = (pk (G r) && q r))
    (hfun : ∀ r : RawRec, F (s1f r) = G r) :
    (((df.map s1f).filter s).map F).filter p
      = ((df.filter q).map G).filter pk := by
  rw [piece_canon, map_filter_canon]
  rw [List.filter_congr (fun r _ => hpred r)]
  exact List.map_congr_left (fun r _ => hfun r)

/-- Sentinel replacement does not change comparisons against a
non-sentinel value. -/
theorem replaceCell_beq (x : Cell) (v : String) (hv : ¬v ∈ null_replace) :
    (replaceCell x == some v) = (x == some v) := by
  cases x with
  | none => rfl
  | some w =>
    by_cases hw : w ∈ null_replace
    · have h1 : replaceCell (some w) = none := by simp [replaceCell, hw]
      have h3 : ((some w : Cell) == some v) = false := by
        rw [beq_eq_false_iff_ne]
        intro hc
        have hwv : w = v := Option.some.inj hc
        exact hv (hwv ▸ hw)
      rw [h1, h3]
      rfl
    · have h1 : replaceCell (some w) = some w := by simp [replaceCell, hw]
      rw [h1]

/-- Predicate transport for the total and major partitions: after the
pipeline the aggregation level still compares like the original one. -/
theorem level_pred_transport (x : Cell) (k : Bool) (v : String)
    (hv : ¬v ∈ null_replace) (hvd : v ≠ "detailed") :
    (((replaceCell x == some v) && k) && !(x == some "detailed"))
      = (k && (x == some v)) := by
  rw [replaceCell_beq x v hv]
  cases hx : (x == some v) with
  | false => rw [Bool.false_and, Bool.false_and, Bool.and_false]
  | true =>
    have hxx : x = some v := eq_of_beq hx
    have hnd : (x == some "detailed") = false := by
      rw [beq_eq_false_iff_ne, hxx]
      intro hc
      exact hvd (Option.some.inj hc)
    rw [hnd, Bool.not_false, Bool.true_and, Bool.and_true]

/-- A detailed-level branch contributes nothing to the partition of a
different non-sentinel level. -/
theorem dead_level_pred (x : Cell) (k b : Bool) (v : String)
    (hv : ¬v ∈ null_replace) (hvd : v ≠ "detailed") :
    ((((replaceCell x == some v) && k) && (b && (x == some "detailed")))
      = false) := by
  cases hd : (x == some "detailed") with
  | false => rw [Bool.and_false, Bool.and_false]
  | true =>
    have hx : x = some "detailed" := eq_of_beq hd
    have hne : ((some "detailed" : Cell) == some v) = false := by
      rw [beq_eq_false_iff_ne]
      intro hc
      exact hvd (Option.some.inj hc).symm
    rw [replaceCell_beq x v hv, hx, hne, Bool.false_and, Bool.false_and]

/-- A non-detailed branch contributes nothing to the detailed
partition. -/
theorem dead_detail_pred (x : Cell) (k : Bool) :
    ((((replaceCell x == some "detailed") && k) && !(x == some "detailed"))
      = false) := by
  rw [replaceCell_beq x "detailed" (by decide)]
  cases hd : (x == some "detailed") with
  | false => rw [Bool.false_and, Bool.false_and]
  | true => rw [Bool.not_true, Bool.and_false]

/-- Predicate transport for the primary-matched branch of the detailed
partition. -/
theorem matched_pred_transport (r : RawRec) (k : Bool)
    (m : List (String × String)) :
    ((((replaceCell r.o_group == some "detailed") && k)
        && (!((if isDetailed r then dictGet m r.occ_code else none) == none)
          && isDetailed r))
      = (k && (isDetailed r && !(dictGet m r.occ_code == none)))) := by
  rw [replaceCell_beq r.o_group "detailed" (by decide)]
  unfold isDetailed
  cases hD : dictGet m r.occ_code <;>
    cases hx : (r.o_group == some "detailed") <;> cases k <;> rfl

/-- Predicate transport for the fallback branch of the detailed
partition. -/
theorem fallback_pred_transport (r : RawRec) (k : Bool)
    (m : List (String × String)) :
    ((((replaceCell r.o_group == some "detailed") && k)
        && (((if isDetailed r then dictGet m r.occ_code else none) == none)
          && isDetailed r))
      = (k && (isDetailed r && (dictGet m r.occ_code == none)))) := by
  rw [replaceCell_beq r.o_group "detailed" (by decide)]
  unfold isDetailed
  cases hD : dictGet m r.occ_code <;>
    cases hx : (r.o_group == some "detailed") <;> cases k <;> rfl

set_option maxHeartbeats 1600000 in
/-- The total partition of a processed file equals, in order, the image
of the total rows of the file that survive the catch-all filter. -/
theorem split_total_file (slk : SocLookup) (mlk : List (String × String))
    (y : Nat) (df : List RawRec) :
    (split_bls_ogroup (filter_catch_all (process_file slk mlk y df))).1
      = ((df.filter (fun r => r.o_group == some "total")).map
          (row_tf_nondetailed slk mlk y)).filter
            (fun r => !(r.peer_type == some "All Other MSA")) := by
  have lhs_eq : (split_bls_ogroup (filter_catch_all
        (process_file slk mlk y df))).1
      = ((process_file slk mlk y df).filter (fun r =>
          !(r.peer_type == some "All Other MSA"))).filter (fun r =>
            r.o_group == some "total") := rfl
  rw [lhs_eq, process_file_eq, List.filter_filter, List.filter_append,
    List.filter_append]
  refine Eq.trans (congrArg₂ (· ++ ·)
    (congrArg₂ (· ++ ·) (?_ : _ = ([] : List OutRec))
      (?_ : _ = ([] : List OutRec))) (Eq.refl _)) ?_
  · exact split_piece_dead _ _ _ _ df (fun r =>
      dead_level_pred r.o_group _ _ "total" (by decide) (by decide))
  · exact split_piece_dead _ _ _ _ df (fun r =>
      dead_level_pred r.o_group _ _ "total" (by decide) (by decide))
  · simp only [List.nil_append]
    exact split_piece_master _ _ _ _ _ _ _ df
      (fun r => level_pred_transport r.o_group _ "total"
        (by decide) (by decide))
      (fun r => rfl)

set_option maxHeartbeats 1600000 in
/-- The major partition of a processed file equals, in order, the image
of the major rows of the file that survive the catch-all filter. -/
theorem split_major_file (slk : SocLookup) (mlk : List (String × String))
    (y : Nat) (df : List RawRec) :
    (split_bls_ogroup (filter_catch_all (process_file slk mlk y df))).2.1
      = ((df.filter (fun r => r.o_group == some "major")).map
          (row_tf_nondetailed slk mlk y)).filter
            (fun r => !(r.peer_type == some "All Other MSA")) := by
  have lhs_eq : (split_bls_ogroup (filter_catch_all
        (process_file slk mlk y df))).2.1
      = ((process_file slk mlk y df).filter (fun r =>
          !(r.peer_type == some "All Other MSA"))).filter (fun r =>
            r.o_group == some "major") := rfl
  rw [lhs_eq, process_file_eq, List.filter_filter, List.filter_append,
    List.filter_append]
  refine Eq.trans (congrArg₂ (· ++ ·)
    (congrArg₂ (· ++ ·) (?_ : _ = ([] : List OutRec))
      (?_ : _ = ([] : List OutRec))) (Eq.refl _)) ?_
  · exact split_piece_dead _ _ _ _ df (fun r =>
      dead_level_pred r.o_group _ _ "major" (by decide) (by decide))
  · exact split_piece_dead _ _ _ _ df (fun r =>
      dead_level_pred r.o_group _ _ "major" (by decide) (by decide))
  · simp only [List.nil_append]
    exact split_piece_master _ _ _ _ _ _ _ df
      (fun r => level_pred_transport r.o_group _ "major"
        (by decide) (by decide))
      (fun r => rfl)

set_option maxHeartbeats 1600000 in
/-- The detailed partition of a processed file lists, in order, the
surviving primary-matched rows and then the surviving fallback rows,
each group in original file order. -/
theorem split_detailed_file (slk : SocLookup)
    (mlk : List (String × String)) (y : Nat) (df : List RawRec) :
    (split_bls_ogroup (filter_catch_all (process_file slk mlk y df))).2.2
      = ((df.filter (fun r => isDetailed r
            && !(dictGet (select_mappings slk y) r.occ_code == none))).map
          (row_tf_matched slk mlk y)).filter
            (fun r => !(r.peer_type == some "All Other MSA"))
        ++ ((df.filter (fun r => isDetailed r
            && (dictGet (select_mappings slk y) r.occ_code == none))).map
          (row_tf_fallback slk mlk y)).filter
            (fun r => !(r.peer_type == some "All Other MSA")) := by
  have lhs_eq : (split_bls_ogroup (filter_catch_all
        (process_file slk mlk y df))).2.2
      = ((process_file slk mlk y df).filter (fun r =>
          !(r.peer_type == some "All Other MSA"))).filter (fun r =>
            r.o_group == some "detailed") := rfl
  rw [lhs_eq, process_file_eq, List.filter_filter, List.filter_append,
    List.filter_append]
  refine Eq.trans (congrArg₂ (· ++ ·) (Eq.refl _)
    (?_ : _ = ([] : List OutRec))) ?_
  · exact split_piece_dead _ _ _ _ df (fun r =>
      dead_detail_pred r.o_group _)
  · simp only [List.append_nil]
    refine congrArg₂ (· ++ ·) ?_ ?_
    · exact split_piece_master _ _ _ _ _ _ _ df
        (fun r => matched_pred_transport r _ (select_mappings slk y))
        (fun r => rfl)
    · exact split_piece_master _ _ _ _ _ _ _ df
        (fun r => fallback_pred_transport r _ (select_mappings slk y))
        (fun r => rfl)

/-- C6 amended: per-file ordering is preserved within the total and the
major partitions - each equals, in order, the image of the rows of the
file at that level surviving the catch-all filter - while within the
detailed partition the records resolved by the primary band-selected
mapping come first and the fallback-processed records second, each
group preserving its original file order. -/
theorem C6_order_within_partitions (slk : SocLookup)
    (mlk : List (String × String)) (y : Nat) (df : List RawRec) :
    (split_bls_ogroup (filter_catch_all (process_file slk mlk y df))).1
      = ((df.filter (fun r => r.o_group == some "total")).map
          (row_tf_nondetailed slk mlk y)).filter
            (fun r => !(r.peer_type == some "All Other MSA")) ∧
    (split_bls_ogroup (filter_catch_all (process_file slk mlk y df))).2.1
      = ((df.filter (fun r => r.o_group == some "major")).map
          (row_tf_nondetailed slk mlk y)).filter
            (fun r => !(r.peer_type == some "All Other MSA")) ∧
    (split_bls_ogroup (filter_catch_all (process_file slk mlk y df))).2.2
      = ((df.filter (fun r => isDetailed r
            && !(dictGet (select_mappings slk y) r.occ_code == none))).map
          (row_tf_matched slk mlk y)).filter
            (fun r => !(r.peer_type == some "All Other MSA"))
        ++ ((df.filter (fun r => isDetailed r
            && (dictGet (select_mappings slk y) r.occ_code == none))).map
          (row_tf_fallback slk mlk y)).filter
            (fun r => !(r.peer_type == some "All Other MSA")) :=
  ⟨split_total_file slk mlk y df, split_major_file slk mlk y df,
   split_detailed_file slk mlk y df⟩

end ProcessBls
